import Mathlib

/-!
Verification development for the resource-provisioning scripts of this
repository (scripts/provision_workspace.py, scripts/provision_lakehouses.py,
scripts/provision_lakehouses_warehouse.py,
scripts/provision_lakehouses_warehouses.py, scripts/provision_notebooks.py,
scripts/debug_provision_notebooks.py, scripts/generate_synthetic_data.py).

The scripts are shallowly embedded: JSON values become the inductive JVal,
HTTP responses become explicit response environments (functions from request
data to classified outcomes), the filesystem becomes a map from path to
optional content, and each script entry point becomes a pure function from
its inputs (CLI arguments, environment variables, response environments,
the current clock string) to a result record collecting the exit code, the
HTTP creation calls issued, the state files written and the artifact payload.
-/

/-! ## A small JSON value model and Python-truthiness helpers -/

/-- JSON-ish values as the scripts see them after json parsing. -/
inductive JVal where
  | jstr (s : String)
  | jnum (n : Int)
  | jbool (b : Bool)
  | jnull
  | jobj (fields : List (String × JVal))
  | jarr (elems : List JVal)

/-- Dictionary lookup, dict.get(k): first binding of the key. -/
def jLookup : List (String × JVal) → String → Option JVal
  | [], _ => none
  | (k, v) :: rest, q => if k = q then some v else jLookup rest q

/-- Python truthiness of a JSON value (empty string, 0, None, empty
containers and False are falsy). -/
def jTruthy : JVal → Bool
  | .jstr s => !(s == "")
  | .jnum n => !(n == 0)
  | .jbool b => b
  | .jnull => false
  | .jobj fields => !fields.isEmpty
  | .jarr elems => !elems.isEmpty

/-- Python (a or b) on optional JSON values: a missing key or a falsy value
falls through to the right operand. -/
def pyOrJ : Option JVal → Option JVal → Option JVal
  | some v, b => if jTruthy v then some v else b
  | none, b => b

/-- Truthiness of an optional JSON value (None is falsy). -/
def optTruthy : Option JVal → Bool
  | some v => jTruthy v
  | none => false

/-- Python str.strip: drop leading and trailing whitespace. -/
def pyStrip (s : String) : String :=
  String.mk (((s.data.dropWhile Char.isWhitespace).reverse.dropWhile Char.isWhitespace).reverse)

/-- The helper env lookup of provision_workspace.py: returns the variable
only when it is set and does not strip to the empty string. -/
def pyEnv : Option String → Option String
  | none => none
  | some s => if s == "" then none else if pyStrip s == "" then none else some s

/-- Python str.lower for the ASCII status strings the scripts compare. -/
def lowerStr (s : String) : String := String.mk (s.data.map Char.toLower)

/-! ## provision_workspace.py -/

/-- synth_id of provision_workspace.py: the locally synthesized fallback
workspace id built from the sanitized name and a UTC timestamp string. -/
def synth_id (sanitized : String) (ts : String) : String :=
  "local-" ++ sanitized ++ "-" ++ ts

/-- First candidate key present in the creation-response object, in the
order tried by main of provision_workspace.py. -/
def firstPresent (fields : List (String × JVal)) : List String → Option JVal
  | [] => none
  | k :: ks =>
    match jLookup fields k with
    | some v => some v
    | none => firstPresent fields ks

/-- The nested scan of main: walk the top-level values of the response, and
inside each dict value take the first present id-like key; a falsy hit is
skipped (the loop only breaks on a truthy workspace id). -/
def nestedTruthy : List (String × JVal) → Option JVal
  | [] => none
  | (_, JVal.jobj vfields) :: rest =>
    match firstPresent vfields ["id", "workspaceId", "workspace_id", "idValue"] with
    | some v => if jTruthy v then some v else nestedTruthy rest
    | none => nestedTruthy rest
  | _ :: rest => nestedTruthy rest

/-- Workspace-id extraction of main (lines 276-289): try the top-level keys
in order, then scan nested dict values; only a truthy result is used. -/
def wsIdFromResp (fields : List (String × JVal)) : Option JVal :=
  match firstPresent fields ["id", "workspaceId", "workspace_id", "idValue"] with
  | some v => if jTruthy v then some v else nestedTruthy fields
  | none => nestedTruthy fields

/-- The existing-artifact id lookup of main (line 218):
existing.get workspace_id or existing.get workspaceId or existing.get id. -/
def wsExistingId (obj : List (String × JVal)) : Option JVal :=
  pyOrJ (jLookup obj "workspace_id") (pyOrJ (jLookup obj "workspaceId") (jLookup obj "id"))

/-- The idempotency gate of main (lines 215-221): without --force, an
existing, non-empty output artifact with a truthy workspace id makes the
script exit immediately. -/
def wsSkips (force : Bool) (existing : Option (List (String × JVal))) : Bool :=
  if force then false
  else
    match existing with
    | none => false
    | some obj => if obj.isEmpty then false else optTruthy (wsExistingId obj)

/-- CLI arguments of provision_workspace.py that the embedded main reads. -/
structure WsArgs where
  workspaceName : String
  sanitizedName : String
  force : Bool
  dryRun : Bool

/-- The fields of the JSON artifact main writes that the claims mention. -/
structure WsPayload where
  workspace_id : JVal
  created : Bool
  note : Option String

/-- Observable outcome of one invocation of main: process exit code, HTTP
calls issued (token exchange and workspace-creation POSTs counted
separately) and the artifact written (none when the run skipped). -/
structure WsResult where
  exitCode : Nat
  tokenCalls : Nat
  creationCalls : Nat
  written : Option WsPayload

/-- main of provision_workspace.py. Inputs beyond the CLI arguments: the raw
environment variables, the parsed existing output artifact (none when the
file is absent or unreadable), the timestamp string, and the outcomes of the
token exchange and of the workspace-creation call (create_fabric_workspace
raises on any non-2xx status, so its outcome is an Except carrying the
parsed 2xx body and status on success). The admin-role assignment never
changes the exit code or the workspace id (main returns 0 at line 318
regardless), so it is not tracked here. -/
def provisionWorkspaceMain (args : WsArgs) (envTenant envClient envSecret : Option String)
    (existing : Option (List (String × JVal))) (ts : String)
    (tokenRes : Except String String)
    (createRes : Except String (List (String × JVal) × Nat)) : WsResult :=
  if wsSkips args.force existing then ⟨0, 0, 0, none⟩
  else if args.dryRun then
    ⟨0, 0, 0, some ⟨.jstr (synth_id args.sanitizedName ts), false, some "dry-run synthetic id"⟩⟩
  else if (pyEnv envTenant).isNone || (pyEnv envClient).isNone || (pyEnv envSecret).isNone then
    ⟨0, 0, 0, some ⟨.jstr (synth_id args.sanitizedName ts), false,
      some "fallback-synthetic-id-no-credentials"⟩⟩
  else
    match tokenRes with
    | .error _ =>
      ⟨0, 1, 0, some ⟨.jstr (synth_id args.sanitizedName ts), false,
        some "fallback-synthetic-id-token-failure"⟩⟩
    | .ok _ =>
      match createRes with
      | .error _ =>
        ⟨0, 1, 1, some ⟨.jstr (synth_id args.sanitizedName ts), false,
          some "fallback-synthetic-id-api-failure"⟩⟩
      | .ok (respObj, _status) =>
        match wsIdFromResp respObj with
        | some v => ⟨0, 1, 1, some ⟨v, true, none⟩⟩
        | none => ⟨0, 1, 1, some ⟨.jstr (synth_id args.sanitizedName ts), true, none⟩⟩

/-! ## assign_admin_role of provision_workspace.py -/

/-- One response of the role-assignment POST: an HTTP status code, or a
requests exception. -/
inductive AssignResp where
  | http (code : Nat)
  | exn (msg : String)

/-- What assign_admin_role returns plus the backoff sleeps it performed. -/
structure AssignResult where
  attempts : Nat
  status : String
  sleeps : List ℚ

/-- The retry loop of assign_admin_role (lines 102-143): while attempts is
below max_retries, issue the POST; 201 succeeds, any other 4xx is terminal
without retry, anything else (including exceptions) sleeps
backoff_base ^ attempts and retries. The fuel argument is the number of
remaining loop iterations, max_retries - attempts. -/
def assignLoop (resp : Nat → AssignResp) (base : ℚ) (attempts : Nat) (sleeps : List ℚ) :
    Nat → AssignResult
  | 0 => ⟨attempts, "failed", sleeps⟩
  | fuel + 1 =>
    let a := attempts + 1
    match resp a with
    | .http code =>
      if code = 201 then ⟨a, "succeeded", sleeps⟩
      else if 400 ≤ code ∧ code < 500 then ⟨a, "failed-non-retryable", sleeps⟩
      else assignLoop resp base a (sleeps ++ [base ^ a]) fuel
    | .exn _ => assignLoop resp base a (sleeps ++ [base ^ a]) fuel

/-- assign_admin_role of provision_workspace.py: run the retry loop from
zero attempts (the source default for max_retries is 5 and for
backoff_base is 3.0, also the argparse defaults). -/
def assign_admin_role (resp : Nat → AssignResp) (base : ℚ) (maxRetries : Nat) : AssignResult :=
  assignLoop resp base 0 [] maxRetries

/-- A response that the loop retries: not 201 and not a 4xx client error
(so a 5xx, an unexpected 2xx or 3xx, or a network exception). -/
def retryableResp : AssignResp → Prop
  | .http code => code ≠ 201 ∧ ¬(400 ≤ code ∧ code < 500)
  | .exn _ => True

/-! ## write_json of provision_workspace.py and the results write of
provision_notebooks.py, as filesystem operation traces -/

/-- Filesystem operations a writer can perform. -/
inductive FsOp where
  | openW (path : String)
  | writeChunk (path : String) (chunk : String)
  | rename (src : String) (dst : String)

/-- Effect of one operation on the filesystem (path to optional content):
opening for write truncates, a chunk write appends, a rename moves. -/
def applyOp (fs : String → Option String) (op : FsOp) : String → Option String :=
  match op with
  | .openW p => fun q => if q = p then some "" else fs q
  | .writeChunk p c => fun q => if q = p then some ((fs p).getD "" ++ c) else fs q
  | .rename a b => fun q => if q = b then fs a else if q = a then none else fs q

/-- Run a list of filesystem operations in order. -/
def runOps (fs : String → Option String) : List FsOp → (String → Option String)
  | [] => fs
  | op :: rest => runOps (applyOp fs op) rest

/-- The operations write_json performs (lines 146-152): it opens the
destination path itself for writing and streams the JSON serialization into
it, chunk by chunk; there is no temporary file and no rename.
(provision_notebooks.py writes OUT_FILE the same way at line 340.) -/
def writeJsonOps (path : String) (chunks : List String) : List FsOp :=
  .openW path :: chunks.map (FsOp.writeChunk path)

/-- Concatenation of the serialization chunks. -/
def strConcat : List String → String
  | [] => ""
  | c :: rest => c ++ strConcat rest

/-! ## provision_lakehouses.py -/

/-- create_lakehouse of provision_lakehouses.py: a 201 response yields the
body id field (possibly absent), anything else yields None. The response is
given as the status code and the parsed body id field. -/
def plCreateLakehouse (code : Nat) (bodyId : Option JVal) : Option JVal :=
  if code = 201 then bodyId else none

/-- main of provision_lakehouses.py: create DataSourceLakehouse and
BenchmarkLakehouse; exit 0 when both ids are truthy, else sys.exit 1. -/
def plMainExit (r1 r2 : Nat × Option JVal) : Nat :=
  if optTruthy (plCreateLakehouse r1.1 r1.2) && optTruthy (plCreateLakehouse r2.1 r2.2)
  then 0 else 1

/-! ## The lakehouse-creation loop of provision_lakehouses_warehouse.py -/

/-- HTTP calls the script can issue for lakehouses: the creation POST, and a
GET of the lakehouse listing (which the source never performs). -/
inductive LhwCall where
  | postLakehouse (name : String)
  | getLakehouseList
deriving DecidableEq

/-- Classified response of one lakehouse-creation POST. -/
inductive LhwResp where
  | created (id : String)
  | conflict
  | otherErr (code : Nat)
deriving DecidableEq

/-- Outcome of the loop: calls issued, ids collected, and the exit code when
the script aborted (sys.exit 1 on any non-201 non-409 response). -/
structure LhwLoopOut where
  calls : List LhwCall
  ids : List String
  exitCode : Option Nat
deriving DecidableEq

/-- The lakehouse loop of provision_lakehouses_warehouse.py (lines 38-53):
201 records the response id; 409 prints already-exists and proceeds without
any further call (the source comment reads: Optionally fetch lakehouse ID
here if needed); anything else exits 1. -/
def lakehouseLoop (resp : String → LhwResp) : List String → LhwLoopOut
  | [] => ⟨[], [], none⟩
  | n :: rest =>
    match resp n with
    | .created id =>
      let r := lakehouseLoop resp rest
      ⟨LhwCall.postLakehouse n :: r.calls, id :: r.ids, r.exitCode⟩
    | .conflict =>
      let r := lakehouseLoop resp rest
      ⟨LhwCall.postLakehouse n :: r.calls, r.ids, r.exitCode⟩
    | .otherErr _ => ⟨[LhwCall.postLakehouse n], [], some 1⟩

/-! ## The job-instance poll loop of generate_synthetic_data.py -/

/-- One poll response: HTTP status code and the status hint the script
extracts from the JSON body (j.get status, or j.get state, or j.get job
.get status; absent when the body is not JSON or carries none of them). -/
structure JobPollResp where
  code : Nat
  statusHint : Option String
deriving DecidableEq

/-- How a poll loop run can stop. -/
inductive JobStop where
  | failed
  | success
  | exhausted
deriving DecidableEq

/-- The failed check of line 177: the status hint is a string whose
lowercase form is the word failed. -/
def jobFailedCheck (r : JobPollResp) : Bool :=
  match r.statusHint with
  | some s => lowerStr s == "failed"
  | none => false

/-- The success condition of line 180 on the status hint: absent, or one of
the lowercase terminal success words. -/
def jobSuccessHint (r : JobPollResp) : Bool :=
  match r.statusHint with
  | none => true
  | some s =>
    lowerStr s == "succeeded" || lowerStr s == "finished" ||
    lowerStr s == "completed" || lowerStr s == "completedwithwarnings"

/-- Whether one tick of the job-instance poll loop stops, and how: the
failed check is tested first (line 177), then the 2xx success check
(line 180); any other response continues polling. -/
def jobStopKind (r : JobPollResp) : Option JobStop :=
  if jobFailedCheck r then some .failed
  else if 200 ≤ r.code ∧ r.code < 300 ∧ jobSuccessHint r then some .success
  else none

/-- The poll loop of lines 165-182, from a given attempt number with the
given remaining iterations: returns the number of the attempt on which the
loop stopped and the stop kind (exhausted after the final attempt when no
tick stopped it). -/
def jobPollFrom (resp : Nat → JobPollResp) : Nat → Nat → Nat × JobStop
  | attempt, 0 => (attempt - 1, JobStop.exhausted)
  | attempt, fuel + 1 =>
    match jobStopKind (resp attempt) with
    | some k => (attempt, k)
    | none => jobPollFrom resp (attempt + 1) fuel

/-- The full loop: for attempt in range(1, 61). -/
def jobPoll (resp : Nat → JobPollResp) : Nat × JobStop :=
  jobPollFrom resp 1 60

/-! ## The bounded GetDefinition poll block of generate_synthetic_data.py
(lines 244-392) -/

/-- One GetDefinition poll outcome, as the block classifies it: no response
at all (request exception), a JSON body carrying only a status field, or a
body carrying a notebook payload. -/
inductive GetDefResp where
  | noResp
  | statusOnly (status : String)
  | withPayload (payload : String)

/-- The loop state: attempts made so far, seconds slept so far, and the
reason the loop stopped, when it has. -/
structure GdState where
  attempt : Nat
  elapsed : Nat
  stopped : Option String

/-- One iteration of the while-True loop. With MAX_GETDEF_WAIT_SECONDS set
to a value at most 0 the script sets max_wait_seconds to None (maxWait =
none here, line 262-264: the old indefinite behaviour); then no elapsed
check ever fires. A status-only body whose status lowercases to running
continues polling after a bounded sleep of min (2 + attempt) 10 seconds; any
other status stops the loop, as does a body with a payload. A missing
response sleeps and, only under a numeric budget, stops when the budget is
consumed. -/
def gdStep (resp : Nat → GetDefResp) (maxWait : Option Nat) (s : GdState) : GdState :=
  match s.stopped with
  | some _ => s
  | none =>
    let a := s.attempt + 1
    match resp a with
    | .noResp =>
      let sleepS := min (2 + a) 10
      match maxWait with
      | some mw =>
        if mw ≤ s.elapsed + sleepS then ⟨a, s.elapsed + sleepS, some "no-response-budget"⟩
        else ⟨a, s.elapsed + sleepS, none⟩
      | none => ⟨a, s.elapsed + sleepS, none⟩
    | .statusOnly st =>
      if lowerStr st == "running" then
        match maxWait with
        | some mw =>
          if mw ≤ s.elapsed then ⟨a, s.elapsed, some "wall-clock-budget"⟩
          else ⟨a, s.elapsed + min (2 + a) 10, none⟩
        | none => ⟨a, s.elapsed + min (2 + a) 10, none⟩
      else ⟨a, s.elapsed, some "terminal-status"⟩
    | .withPayload _ => ⟨a, s.elapsed, some "payload-written"⟩

/-- n iterations of the GetDefinition poll loop from the start state. -/
def gdRun (resp : Nat → GetDefResp) (maxWait : Option Nat) : Nat → GdState
  | 0 => ⟨0, 0, none⟩
  | n + 1 => gdStep resp maxWait (gdRun resp maxWait n)

/-- A poll stream that always reports a running, non-terminal status. -/
def gdAlwaysRunning : Nat → GetDefResp := fun _ => .statusOnly "Running"

/-! ## provision_lakehouses_warehouses.py -/

/-- One entry of the merged workspaces summary as the script reads it:
the workspace_id field, the api_response object and the sanitized name. -/
structure WsSummaryEntry where
  workspace_id : Option JVal
  api_response : Option (List (String × JVal))
  sanitized_name : String

/-- The id resolution of main (lines 186, 195): ws.get workspace_id or
(ws.get api_response or empty).get id. -/
def entryWid (e : WsSummaryEntry) : Option JVal :=
  pyOrJ e.workspace_id (match e.api_response with
    | some fields => jLookup fields "id"
    | none => none)

/-- The resolved id when it is truthy, none otherwise (the script skips the
entry when the resolved id is falsy). -/
def entryWidTruthy (e : WsSummaryEntry) : Option JVal :=
  match entryWid e with
  | some v => if jTruthy v then some v else none
  | none => none

/-- Outcome of one create_lakehouse call of this script: a 2xx parsed body,
or a non-2xx status on which the function calls die (sys.exit 1). -/
inductive LhOutcome where
  | ok2xx (body : List (String × JVal))
  | lhDie (code : Nat)

/-- Outcome of one create_warehouse call: a 2xx parsed body; a 202 whose
polling found the warehouse; a 202 whose polling did not (the function
returns the 202 info); or a non-2xx non-202 status on which it dies. -/
inductive WhOutcome where
  | ok2xx (body : List (String × JVal))
  | acceptedFound (body : List (String × JVal))
  | acceptedNotFound
  | whDie (code : Nat)

/-- A resource-creation POST issued by this script. -/
inductive PwCall where
  | postLakehouse (wid : JVal) (name : String)
  | postWarehouse (wid : JVal) (name : String)

/-- The workspace id a creation call was issued against. -/
def pwCallWid : PwCall → JVal
  | .postLakehouse w _ => w
  | .postWarehouse w _ => w

/-- Calls, per-resource state files written, and abort (die) status of a
processing step. -/
structure PwStep where
  calls : List PwCall
  writes : List String
  abort : Option Nat

/-- Per-workspace body of the main loop (lines 194-211): skip the entry when
its resolved workspace id is falsy; otherwise POST BenchmarkLakehouse (die
on failure), write its state file, POST BenchmarkWarehouse (die on its
hard failure), write its state file. -/
def pwProcessWs (lh : JVal → String → LhOutcome) (wh : JVal → String → WhOutcome)
    (e : WsSummaryEntry) : PwStep :=
  match entryWidTruthy e with
  | none => ⟨[], [], none⟩
  | some wid =>
    match lh wid "BenchmarkLakehouse" with
    | .lhDie _ => ⟨[.postLakehouse wid "BenchmarkLakehouse"], [], some 1⟩
    | .ok2xx _ =>
      match wh wid "BenchmarkWarehouse" with
      | .whDie _ =>
        ⟨[.postLakehouse wid "BenchmarkLakehouse", .postWarehouse wid "BenchmarkWarehouse"],
          ["lakehouse-" ++ e.sanitized_name], some 1⟩
      | _ =>
        ⟨[.postLakehouse wid "BenchmarkLakehouse", .postWarehouse wid "BenchmarkWarehouse"],
          ["lakehouse-" ++ e.sanitized_name, "warehouse-" ++ e.sanitized_name], none⟩

/-- Aggregate run outcome: creation calls issued, state files written, and
the process exit code (0 on completion, 1 when die aborted the run). -/
structure PwRun where
  calls : List PwCall
  writes : List String
  exitCode : Nat

/-- The for-loop over the summary workspaces, stopping at the first die. -/
def pwLoop (lh : JVal → String → LhOutcome) (wh : JVal → String → WhOutcome) :
    List WsSummaryEntry → PwRun
  | [] => ⟨[], [], 0⟩
  | e :: rest =>
    let s := pwProcessWs lh wh e
    match s.abort with
    | some c => ⟨s.calls, s.writes, c⟩
    | none =>
      let r := pwLoop lh wh rest
      ⟨s.calls ++ r.calls, s.writes ++ r.writes, r.exitCode⟩

/-- The merged summary: the controller entry and the action workspaces. -/
structure WhSummary where
  controller : WsSummaryEntry
  workspaces : List WsSummaryEntry

/-- main of provision_lakehouses_warehouses.py after authentication: resolve
the controller id (die when falsy), create MetricsLakehouse in it (die on
failure), then process each summary workspace in order. -/
def warehousesMain (s : WhSummary) (lh : JVal → String → LhOutcome)
    (wh : JVal → String → WhOutcome) : PwRun :=
  match entryWidTruthy s.controller with
  | none => ⟨[], [], 1⟩
  | some cid =>
    match lh cid "MetricsLakehouse" with
    | .lhDie _ => ⟨[.postLakehouse cid "MetricsLakehouse"], [], 1⟩
    | .ok2xx _ =>
      let r := pwLoop lh wh s.workspaces
      ⟨.postLakehouse cid "MetricsLakehouse" :: r.calls,
        ("lakehouse-metrics-" ++ s.controller.sanitized_name) :: r.writes, r.exitCode⟩

/-! ## The notebook upload loop of provision_notebooks.py -/

/-- One notebook entry of the synthesized manifest. -/
structure NbSpec where
  displayName : String
  file : Option String
  workspaces : List String

/-- Response of one notebook-upload POST: a status code with the optional id
of the parsed body, or a requests exception. -/
inductive UploadResp where
  | httpCode (code : Nat) (bodyId : Option String)
  | exn (msg : String)

/-- One row of the notebooks_created state file the loop appends. -/
structure NbEntryResult where
  displayName : String
  workspace : Option String
  status : String
  notebook_id : Option String

/-- First-match lookup in the displayName-to-id workspace map. -/
def lookupStr : List (String × String) → String → Option String
  | [], _ => none
  | (k, v) :: rest, q => if k = q then some v else lookupStr rest q

/-- The per-(notebook, workspace) body of the upload loop (lines 235-336):
resolve the workspace id by display name (falsy id records
workspace_not_found), require readable notebook bytes, then upload: 200/201
records created with the body id, 202 polls for the item (created_async when
found, accepted_no_completion otherwise), any other status records
upload_failed, and an exception records exception_during_upload. Every
branch appends exactly one result row and the loop continues to the next
pair. -/
def processNbEntry (byName : List (String × String)) (hasBytes : String → Bool)
    (upload : String → String → UploadResp) (pollItem : String → String → Option String)
    (nb : NbSpec) (ws : String) : NbEntryResult :=
  match lookupStr byName ws with
  | none => ⟨nb.displayName, some ws, "workspace_not_found", none⟩
  | some wsId =>
    if wsId == "" then ⟨nb.displayName, some ws, "workspace_not_found", none⟩
    else if !(match nb.file with | some f => hasBytes f | none => false) then
      ⟨nb.displayName, some ws, "missing_source_or_read_failed", none⟩
    else
      match upload wsId nb.displayName with
      | .httpCode code bodyId =>
        if code = 200 ∨ code = 201 then ⟨nb.displayName, some ws, "created", bodyId⟩
        else if code = 202 then
          match pollItem wsId nb.displayName with
          | some nid => ⟨nb.displayName, some ws, "created_async", some nid⟩
          | none => ⟨nb.displayName, some ws, "accepted_no_completion", none⟩
        else ⟨nb.displayName, some ws, "upload_failed", none⟩
      | .exn _ => ⟨nb.displayName, some ws, "exception_during_upload", none⟩

/-- The rows one notebook entry contributes: a single skipped row when its
workspace list is empty, else one row per target workspace. -/
def nbEntriesFor (byName : List (String × String)) (hasBytes : String → Bool)
    (upload : String → String → UploadResp) (pollItem : String → String → Option String)
    (nb : NbSpec) : List NbEntryResult :=
  match nb.workspaces with
  | [] => [⟨nb.displayName, none, "skipped_no_workspace", none⟩]
  | _ :: _ => nb.workspaces.map (processNbEntry byName hasBytes upload pollItem nb)

/-- The whole upload loop over the manifest: the results list written to
the notebooks_created state file. -/
def notebooksRunResults (byName : List (String × String)) (hasBytes : String → Bool)
    (upload : String → String → UploadResp) (pollItem : String → String → Option String) :
    List NbSpec → List NbEntryResult
  | [] => []
  | nb :: rest =>
    nbEntriesFor byName hasBytes upload pollItem nb ++
      notebooksRunResults byName hasBytes upload pollItem rest

/-- Number of result rows the manifest must produce: one per notebook with
no target workspace, one per (notebook, workspace) pair otherwise. -/
def nbEntryCount : List NbSpec → Nat
  | [] => 0
  | nb :: rest => (match nb.workspaces with | [] => 1 | l => l.length) + nbEntryCount rest

/-! ## Claims -/

/-- Claim C1: for a resource whose prior run left a Succeeded provisioning
record (an existing output artifact containing a resolved, truthy workspace
id), re-running provision_workspace.py without --force issues zero HTTP
creation calls (and no token call), exits 0, and leaves the artifact and its
recorded resolved id untouched. -/
theorem c1_succeeded_record_skips_creation (args : WsArgs)
    (envTenant envClient envSecret : Option String) (obj : List (String × JVal)) (ts : String)
    (tokenRes : Except String String) (createRes : Except String (List (String × JVal) × Nat))
    (hforce : args.force = false)
    (hnonempty : obj.isEmpty = false)
    (hid : optTruthy (wsExistingId obj) = true) :
    provisionWorkspaceMain args envTenant envClient envSecret (some obj) ts tokenRes createRes =
      ⟨0, 0, 0, none⟩ := by
  have hskip : wsSkips args.force (some obj) = true := by
    simp [wsSkips, hforce, hnonempty, hid]
  simp [provisionWorkspaceMain, hskip]

/-- Witness for C1 at a concrete prior artifact with workspace id w-123. -/
theorem c1_succeeded_record_skips_creation_witness :
    provisionWorkspaceMain ⟨"BFF Controller", "bff", false, false⟩ (some "t") (some "c")
      (some "s") (some [("workspace_id", JVal.jstr "w-123")]) "20260101000000"
      (Except.ok "tok") (Except.error "unused") = ⟨0, 0, 0, none⟩ :=
  c1_succeeded_record_skips_creation ⟨"BFF Controller", "bff", false, false⟩ (some "t")
    (some "c") (some "s") [("workspace_id", JVal.jstr "w-123")] "20260101000000"
    (Except.ok "tok") (Except.error "unused") rfl rfl rfl

/-- Claim C10: a non-dry-run invocation of provision_workspace.py that does
not skip on an existing artifact, and whose credentials are missing or whose
token exchange fails, still returns 0 and writes an artifact whose
workspace_id is the synthetic local-sanitized-timestamp id with created set
to false, issuing no creation call. -/
theorem c10_missing_credentials_synthetic_fallback (args : WsArgs)
    (envTenant envClient envSecret : Option String)
    (existing : Option (List (String × JVal))) (ts : String)
    (tokenRes : Except String String) (createRes : Except String (List (String × JVal) × Nat))
    (hdry : args.dryRun = false)
    (hnoskip : wsSkips args.force existing = false)
    (hfb : ((pyEnv envTenant).isNone || (pyEnv envClient).isNone ||
              (pyEnv envSecret).isNone) = true ∨
           (((pyEnv envTenant).isNone || (pyEnv envClient).isNone ||
              (pyEnv envSecret).isNone) = false ∧ ∃ e, tokenRes = Except.error e)) :
    ∃ p : WsPayload,
      (provisionWorkspaceMain args envTenant envClient envSecret existing ts
        tokenRes createRes).written = some p ∧
      (provisionWorkspaceMain args envTenant envClient envSecret existing ts
        tokenRes createRes).exitCode = 0 ∧
      (provisionWorkspaceMain args envTenant envClient envSecret existing ts
        tokenRes createRes).creationCalls = 0 ∧
      p.workspace_id = JVal.jstr ("local-" ++ args.sanitizedName ++ "-" ++ ts) ∧
      p.created = false := by
  rcases hfb with hmiss | ⟨hcreds, e, htok⟩
  · refine ⟨⟨.jstr (synth_id args.sanitizedName ts), false,
      some "fallback-synthetic-id-no-credentials"⟩, ?_, ?_, ?_, ?_, ?_⟩ <;>
      simp [provisionWorkspaceMain, hnoskip, hdry, hmiss, synth_id]
  · subst htok
    refine ⟨⟨.jstr (synth_id args.sanitizedName ts), false,
      some "fallback-synthetic-id-token-failure"⟩, ?_, ?_, ?_, ?_, ?_⟩ <;>
      simp [provisionWorkspaceMain, hnoskip, hdry, hcreds, synth_id]

/-- Witness for C10: missing CLIENT_SECRET, concrete sanitized name and
timestamp. -/
theorem c10_missing_credentials_synthetic_fallback_witness :
    ∃ p : WsPayload,
      (provisionWorkspaceMain ⟨"BFF Controller", "bff", false, false⟩ (some "t") (some "c")
        none none "20260101000000" (Except.error "no creds")
        (Except.error "unused")).written = some p ∧
      (provisionWorkspaceMain ⟨"BFF Controller", "bff", false, false⟩ (some "t") (some "c")
        none none "20260101000000" (Except.error "no creds")
        (Except.error "unused")).exitCode = 0 ∧
      (provisionWorkspaceMain ⟨"BFF Controller", "bff", false, false⟩ (some "t") (some "c")
        none none "20260101000000" (Except.error "no creds")
        (Except.error "unused")).creationCalls = 0 ∧
      p.workspace_id = JVal.jstr ("local-" ++ "bff" ++ "-" ++ "20260101000000") ∧
      p.created = false :=
  c10_missing_credentials_synthetic_fallback ⟨"BFF Controller", "bff", false, false⟩
    (some "t") (some "c") none none "20260101000000" (Except.error "no creds")
    (Except.error "unused") rfl rfl (Or.inl (by simp [pyEnv]))

/-- When every response is retryable, the assignment loop consumes all its
fuel, ends failed, and sleeps the geometric backoff sequence. -/
theorem assignLoop_all_retry (resp : Nat → AssignResp) (base : ℚ)
    (h : ∀ n, retryableResp (resp n)) :
    ∀ (fuel attempts : Nat) (sleeps : List ℚ),
    assignLoop resp base attempts sleeps fuel =
      ⟨attempts + fuel, "failed",
        sleeps ++ (List.range fuel).map (fun i => base ^ (attempts + i + 1))⟩ := by
  intro fuel
  induction fuel with
  | zero => intro attempts sleeps; simp [assignLoop]
  | succ f ih =>
    intro attempts sleeps
    have hr := h (attempts + 1)
    have hmaps : (List.range (f + 1)).map (fun i => base ^ (attempts + i + 1)) =
        base ^ (attempts + 1) ::
          (List.range f).map (fun i => base ^ (attempts + 1 + i + 1)) := by
      rw [List.range_succ_eq_map, List.map_cons, List.map_map]
      have hfun : ((fun i => base ^ (attempts + i + 1)) ∘ Nat.succ) =
          (fun i => base ^ (attempts + 1 + i + 1)) := by
        funext i
        simp only [Function.comp]
        congr 1
        omega
      rw [hfun]
    cases hresp : resp (attempts + 1) with
    | http code =>
      rw [hresp] at hr
      obtain ⟨h201, h4xx⟩ := hr
      simp only [assignLoop, hresp]
      rw [if_neg h201, if_neg h4xx, ih (attempts + 1) (sleeps ++ [base ^ (attempts + 1)])]
      rw [hmaps]
      simp [List.append_assoc]
      omega
    | exn m =>
      simp only [assignLoop, hresp]
      rw [ih (attempts + 1) (sleeps ++ [base ^ (attempts + 1)])]
      rw [hmaps]
      simp [List.append_assoc]
      omega

/-- Claim C5: when the role-assignment call always fails with a retryable
transient error, assign_admin_role makes exactly max_retries attempts
(the source default is 5), sleeps the exponential backoff sequence
base ^ 1, ..., base ^ max_retries between attempts, and after exhaustion
returns the terminal failed status instead of retrying further. -/
theorem c5_retry_exhaustion_bound (resp : Nat → AssignResp) (base : ℚ) (maxRetries : Nat)
    (h : ∀ n, retryableResp (resp n)) :
    assign_admin_role resp base maxRetries =
      ⟨maxRetries, "failed", (List.range maxRetries).map (fun i => base ^ (i + 1))⟩ := by
  have hrun := assignLoop_all_retry resp base h maxRetries 0 []
  simpa [assign_admin_role] using hrun

/-- Witness for C5: a call that always returns 503, with the source default
max_retries of 5 and backoff base 3. -/
theorem c5_retry_exhaustion_bound_witness :
    assign_admin_role (fun _ => AssignResp.http 503) 3 5 =
      ⟨5, "failed", (List.range 5).map (fun i => (3 : ℚ) ^ (i + 1))⟩ :=
  c5_retry_exhaustion_bound (fun _ => AssignResp.http 503) 3 5
    (fun _ => ⟨by decide, by decide⟩)

/-- One running tick of the unbounded GetDefinition loop: from an unstopped
state, an always-running poll stream under a None budget leaves the loop
unstopped again. -/
theorem gdStep_running (a e : Nat) :
    gdStep gdAlwaysRunning none ⟨a, e, none⟩ = ⟨a + 1, e + min (2 + (a + 1)) 10, none⟩ := rfl

/-- Claim C3 defect exhibit: with MAX_GETDEF_WAIT_SECONDS at most 0 the
script sets max_wait_seconds to None (the documented preserved indefinite
behaviour); against a poll stream that always answers a non-terminal Running
status, the GetDefinition while-True loop of generate_synthetic_data.py is
still polling after any number of iterations: it has no attempt cap, its
wall-clock cap is disabled, and it never reaches a TimedOut outcome. -/
theorem c3_getdef_loop_never_terminates :
    ∀ n : Nat, (gdRun gdAlwaysRunning none n).stopped = none ∧
      (gdRun gdAlwaysRunning none n).attempt = n := by
  intro n
  induction n with
  | zero => exact ⟨rfl, rfl⟩
  | succ k ih =>
    obtain ⟨ihs, iha⟩ := ih
    have hsplit : gdRun gdAlwaysRunning none (k + 1) =
        gdStep gdAlwaysRunning none (gdRun gdAlwaysRunning none k) := rfl
    rcases hstate : gdRun gdAlwaysRunning none k with ⟨a, e, st⟩
    rw [hstate] at ihs iha
    simp only at ihs iha
    subst ihs
    subst iha
    rw [hsplit, hstate, gdStep_running]
    exact ⟨rfl, rfl⟩

/-- Stepping lemma for the job-instance poll loop: when every tick strictly
before attempt k continues and tick k reports the failed status, the loop
stops exactly at attempt k (performing no further poll). -/
theorem jobPollFrom_stops_at (resp : Nat → JobPollResp) (k : Nat) :
    ∀ (fuel attempt : Nat), attempt ≤ k → k < attempt + fuel →
    (∀ i, attempt ≤ i → i < k → jobStopKind (resp i) = none) →
    jobStopKind (resp k) = some JobStop.failed →
    jobPollFrom resp attempt fuel = (k, JobStop.failed) := by
  intro fuel
  induction fuel with
  | zero => intro attempt h1 h2 _ _; omega
  | succ f ih =>
    intro attempt h1 h2 hnone hk
    by_cases hak : attempt = k
    · subst hak
      simp only [jobPollFrom, hk]
    · have hlt : attempt < k := lt_of_le_of_ne h1 hak
      have hn := hnone attempt le_rfl hlt
      simp only [jobPollFrom, hn]
      exact ih (attempt + 1) hlt (by omega) (fun i hi1 hi2 => hnone i (by omega) hi2) hk

/-- Claim C9: during polling of an in-flight job instance, a poll response
whose status field lowercases to failed ends the loop as Failed on that very
tick, at attempt k, regardless of the attempts remaining of the 60-attempt
budget; earlier ticks are assumed non-terminal. -/
theorem c9_failed_status_stops_within_one_tick (resp : Nat → JobPollResp) (k : Nat)
    (s : String) (hk1 : 1 ≤ k) (hk2 : k ≤ 60)
    (hhint : (resp k).statusHint = some s) (hlow : lowerStr s = "failed")
    (hbefore : ∀ i, 1 ≤ i → i < k → jobStopKind (resp i) = none) :
    jobPoll resp = (k, JobStop.failed) := by
  have hstop : jobStopKind (resp k) = some JobStop.failed := by
    have hchk : jobFailedCheck (resp k) = true := by
      simp [jobFailedCheck, hhint, hlow]
    simp [jobStopKind, hchk]
  exact jobPollFrom_stops_at resp k 60 1 hk1 (by omega) hbefore hstop

/-- Witness for C9: the third poll reports a capitalized Failed while 57
attempts remain; the loop stops at attempt 3 with outcome Failed. -/
theorem c9_failed_status_stops_within_one_tick_witness :
    jobPoll (fun n => if n = 3 then ⟨200, some "Failed"⟩ else ⟨200, some "Running"⟩) =
      (3, JobStop.failed) :=
  c9_failed_status_stops_within_one_tick
    (fun n => if n = 3 then ⟨200, some "Failed"⟩ else ⟨200, some "Running"⟩) 3 "Failed"
    (by omega) (by omega) rfl (by decide)
    (by
      intro i hi1 hi2
      have hi : i = 1 ∨ i = 2 := by omega
      rcases hi with hi | hi <;> subst hi <;> decide)

/-- Claim C4 counterexample: in provision_lakehouses_warehouse.py, both
lakehouse creations return 409 Conflict; the run ends with no listing lookup
issued and no resolved id recorded for either resource, so the conflicted
resources do not end with a resolved id equal to any listing entry. -/
theorem c4_conflict_resolves_no_id_counterexample :
    (lakehouseLoop (fun _ => LhwResp.conflict)
        ["BenchmarkLakehouse", "DataSourceLakehouse"]).ids = [] ∧
    LhwCall.getLakehouseList ∉ (lakehouseLoop (fun _ => LhwResp.conflict)
        ["BenchmarkLakehouse", "DataSourceLakehouse"]).calls ∧
    (lakehouseLoop (fun _ => LhwResp.conflict)
        ["BenchmarkLakehouse", "DataSourceLakehouse"]).exitCode = none := by
  refine ⟨rfl, ?_, rfl⟩
  decide

/-- Claim C4 amended: on a 409 Conflict the lakehouse loop logs
already-exists and proceeds without resolving the existing id: when every
creation POST returns 409 the run completes without aborting, issues exactly
one creation POST per resource, performs no listing lookup, and records no
resolved id for any resource. -/
theorem c4_amended_conflict_skips_resolution (resp : String → LhwResp)
    (names : List String) (h : ∀ n ∈ names, resp n = LhwResp.conflict) :
    lakehouseLoop resp names = ⟨names.map LhwCall.postLakehouse, [], none⟩ := by
  induction names with
  | nil => rfl
  | cons n rest ih =>
    have hn := h n (List.mem_cons_self n rest)
    have hrest : ∀ m ∈ rest, resp m = LhwResp.conflict :=
      fun m hm => h m (List.mem_cons_of_mem n hm)
    simp only [lakehouseLoop, hn, ih hrest, List.map_cons]

/-- Witness for the amended C4 at a single conflicted resource. -/
theorem c4_amended_conflict_skips_resolution_witness :
    lakehouseLoop (fun _ => LhwResp.conflict) ["MetricsLakehouse"] =
      ⟨[LhwCall.postLakehouse "MetricsLakehouse"], [], none⟩ :=
  c4_amended_conflict_skips_resolution (fun _ => LhwResp.conflict) ["MetricsLakehouse"]
    (fun _ _ => rfl)

/-- Claim C6 counterexample: write_json of provision_workspace.py opens the
destination path directly and streams the serialization into it; stopping
the process after the first chunk leaves a partially written file visible at
the destination, different from the complete serialization that an
uninterrupted run produces. -/
theorem c6_partial_write_visible_counterexample :
    runOps (fun _ => none)
        ((writeJsonOps "fabric-workspace.json" ["chunk-one-", "chunk-two"]).take 2)
        "fabric-workspace.json" = some "chunk-one-" ∧
    runOps (fun _ => none)
        (writeJsonOps "fabric-workspace.json" ["chunk-one-", "chunk-two"])
        "fabric-workspace.json" = some "chunk-one-chunk-two" ∧
    "chunk-one-" ≠ "chunk-one-chunk-two" := by
  refine ⟨rfl, rfl, ?_⟩
  decide

/-- Content of the destination after a write trace of chunk appends. -/
theorem runOps_chunks (path : String) :
    ∀ (l : List String) (fs : String → Option String) (s : String), fs path = some s →
    runOps fs (l.map (FsOp.writeChunk path)) path = some (s ++ strConcat l) := by
  intro l
  induction l with
  | nil =>
    intro fs s hfs
    simpa [runOps, strConcat] using hfs
  | cons c rest ih =>
    intro fs s hfs
    have hstep : applyOp fs (FsOp.writeChunk path c) path = some (s ++ c) := by
      simp [applyOp, hfs]
    have := ih (applyOp fs (FsOp.writeChunk path c)) (s ++ c) hstep
    simpa [runOps, strConcat, String.append_assoc] using this

/-- Claim C6 amended: write_json (and the notebooks results write) performs
its write directly at the destination path: every operation of its trace is
the open or a chunk write of that very path (no temporary file, no rename),
and interrupting the trace after the open and the first k chunks leaves
exactly the concatenation of those k chunks visible at the destination. -/
theorem c6_amended_direct_write_trace (path : String) (chunks : List String) (k : Nat)
    (fs0 : String → Option String) :
    (∀ op ∈ writeJsonOps path chunks,
        op = FsOp.openW path ∨ ∃ c, op = FsOp.writeChunk path c) ∧
    runOps fs0 ((writeJsonOps path chunks).take (k + 1)) path =
      some (strConcat (chunks.take k)) := by
  constructor
  · intro op hop
    rcases List.mem_cons.mp hop with hop | hop
    · exact Or.inl hop
    · rcases List.mem_map.mp hop with ⟨c, _, hc⟩
      exact Or.inr ⟨c, hc.symm⟩
  · have htake : (writeJsonOps path chunks).take (k + 1) =
        FsOp.openW path :: (chunks.take k).map (FsOp.writeChunk path) := by
      simp [writeJsonOps, List.map_take]
    rw [htake]
    have hopen : applyOp fs0 (FsOp.openW path) path = some "" := by
      simp [applyOp]
    have := runOps_chunks path (chunks.take k) (applyOp fs0 (FsOp.openW path)) "" hopen
    simpa [runOps] using this

/-- Claim C7 counterexample: a provision_workspace.py run whose
workspace-creation API call fails still exits 0, writing a fallback
synthetic id with created false — a required resource ended in a
non-Succeeded terminal state yet the process exit code is zero. -/
theorem c7_api_failure_exits_zero_counterexample :
    provisionWorkspaceMain ⟨"BFF Controller", "bff", true, false⟩ (some "t") (some "c")
      (some "s") none "20260101000000" (Except.ok "tok")
      (Except.error "500 internal server error") =
      ⟨0, 1, 1, some ⟨JVal.jstr "local-bff-20260101000000", false,
        some "fallback-synthetic-id-api-failure"⟩⟩ := rfl

/-- Claim C7 amended: the exit-code contract holds for
provision_lakehouses.py only: its exit code is 0 if and only if both
lakehouse creations returned 201 with a truthy id; provision_workspace.py
does not satisfy the original claim, as it exits 0 even when the creation
API call fails (see the counterexample). -/
theorem c7_amended_lakehouse_exit_iff (r1 r2 : Nat × Option JVal) :
    plMainExit r1 r2 = 0 ↔
      (r1.1 = 201 ∧ optTruthy r1.2 = true ∧ r2.1 = 201 ∧ optTruthy r2.2 = true) := by
  rcases r1 with ⟨c1, b1⟩
  rcases r2 with ⟨c2, b2⟩
  by_cases h1 : c1 = 201 <;> by_cases h2 : c2 = 201 <;>
    cases hb1 : optTruthy b1 <;> cases hb2 : optTruthy b2 <;>
      simp [plMainExit, plCreateLakehouse, h1, h2, hb1, hb2]
  all_goals rfl

/-- A resolved-and-truthy workspace id is truthy. -/
theorem entryWidTruthy_is_truthy (e : WsSummaryEntry) (w : JVal)
    (h : entryWidTruthy e = some w) : jTruthy w = true := by
  unfold entryWidTruthy at h
  split at h
  · split at h
    · rename_i hv
      cases h
      exact hv
    · cases h
  · cases h

/-- Every creation call the per-workspace step issues targets that
workspace entry's resolved truthy id. -/
theorem pwProcessWs_calls_target (lh : JVal → String → LhOutcome)
    (wh : JVal → String → WhOutcome) (e : WsSummaryEntry) (c : PwCall)
    (hc : c ∈ (pwProcessWs lh wh e).calls) :
    entryWidTruthy e = some (pwCallWid c) := by
  unfold pwProcessWs at hc
  split at hc
  · simp at hc
  · rename_i wid heq
    split at hc
    · simp at hc
      subst hc
      simp only [pwCallWid]
      exact heq
    · split at hc
      · simp at hc
        rcases hc with hc | hc <;> subst hc <;> simp only [pwCallWid] <;> exact heq
      · simp at hc
        rcases hc with hc | hc <;> subst hc <;> simp only [pwCallWid] <;> exact heq

/-- Every creation call the workspace loop issues targets the resolved
truthy id of one of the looped entries. -/
theorem pwLoop_calls_target (lh : JVal → String → LhOutcome)
    (wh : JVal → String → WhOutcome) :
    ∀ (l : List WsSummaryEntry) (c : PwCall), c ∈ (pwLoop lh wh l).calls →
      ∃ e, e ∈ l ∧ entryWidTruthy e = some (pwCallWid c) := by
  intro l
  induction l with
  | nil => intro c hc; simp [pwLoop] at hc
  | cons e rest ih =>
    intro c hc
    unfold pwLoop at hc
    cases hab : (pwProcessWs lh wh e).abort with
    | some k =>
      simp only [hab] at hc
      exact ⟨e, List.mem_cons_self e rest, pwProcessWs_calls_target lh wh e c hc⟩
    | none =>
      simp only [hab] at hc
      rcases List.mem_append.mp hc with hc | hc
      · exact ⟨e, List.mem_cons_self e rest, pwProcessWs_calls_target lh wh e c hc⟩
      · obtain ⟨f, hf, hwid⟩ := ih c hc
        exact ⟨f, List.mem_cons_of_mem e hf, hwid⟩

/-- Claim C2: in provision_lakehouses_warehouses.py, every child creation
call (lakehouse or warehouse POST) is issued against a workspace id that is
present and truthy in the persisted summary — the controller's resolved id
or the resolved id of one of the summary workspaces; an entry whose resolved
id is absent receives no creation call (no call can name it). -/
theorem c2_child_creation_requires_parent_id (s : WhSummary)
    (lh : JVal → String → LhOutcome) (wh : JVal → String → WhOutcome) (c : PwCall)
    (hc : c ∈ (warehousesMain s lh wh).calls) :
    jTruthy (pwCallWid c) = true ∧
      (entryWidTruthy s.controller = some (pwCallWid c) ∨
       ∃ e, e ∈ s.workspaces ∧ entryWidTruthy e = some (pwCallWid c)) := by
  have hmain : entryWidTruthy s.controller = some (pwCallWid c) ∨
      ∃ e, e ∈ s.workspaces ∧ entryWidTruthy e = some (pwCallWid c) := by
    unfold warehousesMain at hc
    split at hc
    · simp at hc
    · rename_i cid hctrl
      split at hc
      · simp at hc
        subst hc
        refine Or.inl ?_
        simp only [pwCallWid]
        exact hctrl
      · simp at hc
        rcases hc with hc | hc
        · subst hc
          refine Or.inl ?_
          simp only [pwCallWid]
          exact hctrl
        · obtain ⟨e, he, hwid⟩ := pwLoop_calls_target lh wh s.workspaces c hc
          exact Or.inr ⟨e, he, hwid⟩
  rcases hmain with h | ⟨e, he, h⟩
  · exact ⟨entryWidTruthy_is_truthy s.controller (pwCallWid c) h, Or.inl h⟩
  · exact ⟨entryWidTruthy_is_truthy e (pwCallWid c) h, Or.inr ⟨e, he, h⟩⟩

/-- Witness for C2: the BenchmarkLakehouse POST of a one-workspace summary
targets exactly the id recorded for that workspace. -/
theorem c2_child_creation_requires_parent_id_witness :
    jTruthy (pwCallWid (PwCall.postLakehouse (JVal.jstr "w1") "BenchmarkLakehouse")) = true ∧
      (entryWidTruthy ⟨some (JVal.jstr "c1"), none, "ctrl"⟩ =
          some (pwCallWid (PwCall.postLakehouse (JVal.jstr "w1") "BenchmarkLakehouse")) ∨
       ∃ e, e ∈ [(⟨some (JVal.jstr "w1"), none, "t1"⟩ : WsSummaryEntry)] ∧
         entryWidTruthy e =
           some (pwCallWid (PwCall.postLakehouse (JVal.jstr "w1") "BenchmarkLakehouse"))) :=
  c2_child_creation_requires_parent_id
    ⟨⟨some (JVal.jstr "c1"), none, "ctrl"⟩, [⟨some (JVal.jstr "w1"), none, "t1"⟩]⟩
    (fun _ _ => LhOutcome.ok2xx []) (fun _ _ => WhOutcome.ok2xx [])
    (PwCall.postLakehouse (JVal.jstr "w1") "BenchmarkLakehouse")
    (by
      show PwCall.postLakehouse (JVal.jstr "w1") "BenchmarkLakehouse" ∈
        [PwCall.postLakehouse (JVal.jstr "c1") "MetricsLakehouse",
         PwCall.postLakehouse (JVal.jstr "w1") "BenchmarkLakehouse",
         PwCall.postWarehouse (JVal.jstr "w1") "BenchmarkWarehouse"]
      exact List.Mem.tail _ (List.Mem.head _))

/-- Claim C8 counterexample: in provision_lakehouses_warehouses.py, a single
failing lakehouse creation (500 on BenchmarkLakehouse of workspace w1)
aborts the whole run with exit 1: the sibling workspace w2 is never
attempted (no call names it) and no per-resource state file is written for
either workspace, so the run does not complete with a full summary. -/
theorem c8_single_failure_aborts_run_counterexample :
    warehousesMain
      ⟨⟨some (JVal.jstr "c1"), none, "ctrl"⟩,
        [⟨some (JVal.jstr "w1"), none, "t1"⟩, ⟨some (JVal.jstr "w2"), none, "t2"⟩]⟩
      (fun wid name =>
        match wid with
        | JVal.jstr s =>
          if s = "w1" then
            (if name = "BenchmarkLakehouse" then LhOutcome.lhDie 500
             else LhOutcome.ok2xx [])
          else LhOutcome.ok2xx []
        | _ => LhOutcome.ok2xx [])
      (fun _ _ => WhOutcome.ok2xx []) =
      ⟨[PwCall.postLakehouse (JVal.jstr "c1") "MetricsLakehouse",
        PwCall.postLakehouse (JVal.jstr "w1") "BenchmarkLakehouse"],
        ["lakehouse-metrics-ctrl"], 1⟩ := rfl

/-- The upload loop produces exactly one result row per manifest entry:
one per notebook with no target workspace, one per pair otherwise. -/
theorem notebooksRunResults_length (byName : List (String × String))
    (hasBytes : String → Bool) (upload : String → String → UploadResp)
    (pollItem : String → String → Option String) :
    ∀ nbs : List NbSpec,
      (notebooksRunResults byName hasBytes upload pollItem nbs).length = nbEntryCount nbs := by
  intro nbs
  induction nbs with
  | nil => rfl
  | cons nb rest ih =>
    simp only [notebooksRunResults, nbEntryCount, List.length_append, ih]
    rcases hw : nb.workspaces with _ | ⟨a, l⟩ <;> simp [nbEntriesFor, hw]

/-- The row of a given (notebook, workspace) pair is in the results. -/
theorem notebooksRunResults_mem (byName : List (String × String))
    (hasBytes : String → Bool) (upload : String → String → UploadResp)
    (pollItem : String → String → Option String) (nb : NbSpec) (ws : String)
    (h2 : ws ∈ nb.workspaces) :
    ∀ nbs : List NbSpec, nb ∈ nbs →
      processNbEntry byName hasBytes upload pollItem nb ws ∈
        notebooksRunResults byName hasBytes upload pollItem nbs := by
  intro nbs
  induction nbs with
  | nil => intro h1; cases h1
  | cons m rest ih =>
    intro h1
    rcases List.mem_cons.mp h1 with hm | hm
    · subst hm
      refine List.mem_append_left _ ?_
      rcases hw : nb.workspaces with _ | ⟨a, l⟩
      · rw [hw] at h2; cases h2
      · rw [hw] at h2
        simp only [nbEntriesFor, hw]
        exact List.mem_map_of_mem _ h2
    · exact List.mem_append_right _ (ih hm)

/-- Claim C8 amended: a single upload failure in provision_notebooks.py does
not abort the run: every (notebook, workspace) pair of the manifest is
processed from its own responses alone (failures captured in that row's
status), the pair's row is present in the written results, and the results
have exactly one row per manifest entry; in
provision_lakehouses_warehouses.py, by contrast, a single creation failure
aborts the whole run (see the counterexample). -/
theorem c8_amended_notebook_failures_isolated (byName : List (String × String))
    (hasBytes : String → Bool) (upload : String → String → UploadResp)
    (pollItem : String → String → Option String) (nbs : List NbSpec) (nb : NbSpec)
    (ws : String) (h1 : nb ∈ nbs) (h2 : ws ∈ nb.workspaces) :
    (notebooksRunResults byName hasBytes upload pollItem nbs).length = nbEntryCount nbs ∧
    processNbEntry byName hasBytes upload pollItem nb ws ∈
      notebooksRunResults byName hasBytes upload pollItem nbs :=
  ⟨notebooksRunResults_length byName hasBytes upload pollItem nbs,
   notebooksRunResults_mem byName hasBytes upload pollItem nb ws h2 nbs h1⟩

/-- Witness for the amended C8: a manifest of one notebook targeting two
workspaces whose uploads always fail with 500; both rows are still produced
and the failing row is recorded with the upload_failed status. -/
theorem c8_amended_notebook_failures_isolated_witness :
    (notebooksRunResults [("BFF-Test1", "id1"), ("BFF-Test2", "id2")] (fun _ => true)
        (fun _ _ => UploadResp.httpCode 500 none) (fun _ _ => none)
        [⟨"1.IngestData", some "notebooks/ingest_data.ipynb", ["BFF-Test1", "BFF-Test2"]⟩]).length =
      nbEntryCount [⟨"1.IngestData", some "notebooks/ingest_data.ipynb",
        ["BFF-Test1", "BFF-Test2"]⟩] ∧
    processNbEntry [("BFF-Test1", "id1"), ("BFF-Test2", "id2")] (fun _ => true)
        (fun _ _ => UploadResp.httpCode 500 none) (fun _ _ => none)
        ⟨"1.IngestData", some "notebooks/ingest_data.ipynb", ["BFF-Test1", "BFF-Test2"]⟩
        "BFF-Test1" ∈
      notebooksRunResults [("BFF-Test1", "id1"), ("BFF-Test2", "id2")] (fun _ => true)
        (fun _ _ => UploadResp.httpCode 500 none) (fun _ _ => none)
        [⟨"1.IngestData", some "notebooks/ingest_data.ipynb", ["BFF-Test1", "BFF-Test2"]⟩] :=
  c8_amended_notebook_failures_isolated [("BFF-Test1", "id1"), ("BFF-Test2", "id2")]
    (fun _ => true) (fun _ _ => UploadResp.httpCode 500 none) (fun _ _ => none)
    [⟨"1.IngestData", some "notebooks/ingest_data.ipynb", ["BFF-Test1", "BFF-Test2"]⟩]
    ⟨"1.IngestData", some "notebooks/ingest_data.ipynb", ["BFF-Test1", "BFF-Test2"]⟩
    "BFF-Test1" (List.mem_singleton.mpr rfl) (by simp)
